import Mathlib

/-!
Shallow embedding of `celery/bin/worker.py`: the option validators
(`CeleryBeat.convert`, `Autoscale.convert`), the dynamic-option merge,
the argument-reconstitution loop of the `worker` command's detach branch,
and the `detach` daemonizer, together with theorems settling the claims
about them.
-/

/-- A resolved option value in `ParsedOptions`: Python values `None`, `bool`,
`int`, `str`, and the two-integer autoscale tuple. -/
inductive Value : Type
  | none : Value
  | bool : Bool → Value
  | int : Int → Value
  | str : String → Value
  | tup : Int → Int → Value
  deriving DecidableEq

/-- Python `isinstance(value, bool)`. -/
def Value.isBool : Value → Bool
  | Value.bool _ => true
  | _ => false

/-- Python truthiness of a resolved value. -/
def Value.truthy : Value → Bool
  | Value.none => false
  | Value.bool b => b
  | Value.int n => decide (n ≠ 0)
  | Value.str s => decide (s ≠ "")
  | Value.tup _ _ => true

/-- Python `str(value)` for the values a resolved option can hold:
`str(True) = "True"`, `str(False) = "False"`, `str(None) = "None"`,
`str((10, 0)) = "(10, 0)"`. -/
def pyStr : Value → String
  | Value.none => "None"
  | Value.bool true => "True"
  | Value.bool false => "False"
  | Value.int n => toString n
  | Value.str s => s
  | Value.tup a b => "(" ++ toString a ++ ", " ++ toString b ++ ")"

/-- One iteration body of the reconstitution loop (worker.py lines 357-363):
`if isinstance(value, bool) and value: argv.append(f'--{arg}')`
`else: if value is not None: argv.append(f'--{arg}'); argv.append(str(value))`. -/
def encodeParam (name : String) (v : Value) : List String :=
  if v.isBool && v.truthy then ["--" ++ name]
  else if v ≠ Value.none then ["--" ++ name, pyStr v]
  else []

/-- The keys popped off `ctx.params` before reconstitution
(worker.py lines 347-355): the detach flag itself, log/pid files, uid, gid,
umask, hostname and the resolved executable. -/
def excludedKeys : List String :=
  ["detach", "logfile", "pidfile", "uid", "gid", "umask", "hostname", "executable"]

/-- The remaining `params` dict after the `pop` calls; `dict.pop` removes the
key and keeps the insertion order of the rest. -/
def remainingParams (ctxParams : List (String × Value)) : List (String × Value) :=
  ctxParams.filter (fun kv => !(excludedKeys.contains kv.1))

/-- The argument vector actually handed to `detach` by the detach branch
(worker.py lines 356-374).  The source has `return detach(...)` INSIDE the
`for arg, value in params.items():` loop, at the same indentation as the
`if`, so the loop body runs for the first entry only and then returns;
with an empty `params` the bare `return` on line 374 runs and `detach` is
never called (`Option.none` here). -/
def detachBranchArgv (ctxParams : List (String × Value)) : Option (List String) :=
  match remainingParams ctxParams with
  | [] => Option.none
  | (name, v) :: _ => some (["-m", "celery", "worker"] ++ encodeParam name v)

/-- Modelled from the spec: the reconstitution as §4.4 describes it, encoding
EVERY entry of the remaining map in insertion order.  Used only to compare
against `detachBranchArgv`, which embeds what the code does. -/
def specReconstituteAll (params : List (String × Value)) : List String :=
  params.foldl (fun acc kv => acc ++ encodeParam kv.1 kv.2) []

/-! ## Python dict operations, for `kwargs.update(user_options)` -/

/-- Python dict lookup on an insertion-ordered association list. -/
def dictGet (d : List (String × Value)) (k : String) : Option Value :=
  match d with
  | [] => Option.none
  | (k', v) :: rest => if k' = k then some v else dictGet rest k

/-- Python `d[k] = v`: replace the value in place if the key is present
(keeping its position), otherwise append the new binding. -/
def dictSet (d : List (String × Value)) (k : String) (v : Value) :
    List (String × Value) :=
  match d with
  | [] => [(k, v)]
  | (k', v') :: rest =>
      if k' = k then (k, v) :: rest else (k', v') :: dictSet rest k v

/-- Python `static.update(dynamic)`: every binding of `dynamic` is written
into `static`, existing keys overwritten (worker.py line 335,
`kwargs.update(user_options)`). -/
def dictUpdate (static dynamic : List (String × Value)) :
    List (String × Value) :=
  dynamic.foldl (fun acc kv => dictSet acc kv.1 kv.2) static

/-- The keys of a dict. -/
def dictKeys (d : List (String × Value)) : List String := d.map Prod.fst

/-! ## Autoscale validator -/

/-- Python `str.split(',')` on the character list: `"" → [""]`,
`"a,,b" → ["a","","b"]`. -/
def splitCommaChars : List Char → List (List Char)
  | [] => [[]]
  | c :: rest =>
      if c = ',' then [] :: splitCommaChars rest
      else
        match splitCommaChars rest with
        | [] => [[c]]
        | g :: gs => (c :: g) :: gs

/-- Python `value.split(',')`. -/
def splitComma (s : String) : List String :=
  (splitCommaChars s.toList).map (fun cs => String.mk cs)

/-- Whitespace stripped by Python `int(str)`. -/
def isPySpace (c : Char) : Bool :=
  c = ' ' || c = '\t' || c = '\n' || c = '\r' || c = '\x0b' || c = '\x0c'

/-- Digit-string accumulator for `int()`. -/
def parseDigits : List Char → Nat → Option Nat
  | [], acc => some acc
  | c :: rest, acc =>
      if c.isDigit then parseDigits rest (acc * 10 + (c.toNat - 48))
      else Option.none

/-- Python `int(str)`: strip whitespace, optional sign, then decimal digits
(digit-grouping underscores are not modelled); anything else raises
`ValueError`, i.e. `Option.none` here. -/
def pyParseInt (s : String) : Option Int :=
  let core := ((s.toList.dropWhile isPySpace).reverse.dropWhile isPySpace).reverse
  match core with
  | [] => Option.none
  | c :: rest =>
      if c = '-' then
        match rest with
        | [] => Option.none
        | _ => (parseDigits rest 0).map (fun n => -(n : Int))
      else if c = '+' then
        match rest with
        | [] => Option.none
        | _ => (parseDigits rest 0).map (fun n => (n : Int))
      else (parseDigits core 0).map (fun n => (n : Int))

/-- Python `repr` of a string (quote wrapping; escape sequences are not
needed for the inputs considered). -/
def pyReprStr (s : String) : String := "'" ++ s ++ "'"

/-- Result of running a click parameter conversion or a command body:
success, a controlled `self.fail(...)` usage error, or an uncaught Python
exception escaping the code. -/
inductive PyResult (α : Type) : Type
  | ok : α → PyResult α
  | usageError : String → PyResult α
  | uncaught : String → PyResult α
  deriving DecidableEq

/-- Python `tuple(reversed(sorted([a, b])))` on a two-element list. -/
def sortedDescPair (a b : Int) : Int × Int := (max a b, min a b)

/-- `Autoscale.convert` (worker.py lines 92-109).  The two-token branch whose
`int()` raises lands in `except ValueError`, whose message evaluates
`value.join(',')` on a LIST — an uncaught `AttributeError`, so `self.fail`
is never reached there. -/
def Autoscale.convert (value : String) : PyResult (Int × Int) :=
  match splitComma value with
  | [t] =>
      match pyParseInt t with
      | some n => PyResult.ok (sortedDescPair n 0)
      | Option.none =>
          PyResult.usageError
            ("Expected an integer. Got [" ++ pyReprStr t ++ "] instead.")
  | [t1, t2] =>
      match pyParseInt t1, pyParseInt t2 with
      | some a, some b => PyResult.ok (sortedDescPair a b)
      | _, _ =>
          PyResult.uncaught
            "AttributeError: list object has no attribute join"
  | toks =>
      PyResult.usageError
        ("Expected two comma separated integers or one integer." ++
          "Got " ++ toString toks.length ++ " instead.")

/-! ## Beat validator -/

/-- `CeleryBeat.convert` (worker.py lines 52-57): fail when running on
Windows with the flag set, otherwise return the value unchanged. -/
def CeleryBeat.convert (isWindows : Bool) (value : Bool) : PyResult Bool :=
  if isWindows && value then
    PyResult.usageError
      ("-B option does not work on Windows.  " ++
        "Please run celery beat as a separate service.")
  else PyResult.ok value

/-! ## Daemonizer -/

/-- `celery.platforms.EX_FAILURE`. Modelled from the spec: the platforms
module is not among the sources; the spec requires only "a fixed failure
exit status (distinct from success)", and success is 0. -/
def EX_FAILURE : Nat := 1

/-- Module state captured when `worker.py` is imported: line 117,
`C_FAKEFORK = os.environ.get('C_FAKEFORK')`. -/
structure ModuleState : Type where
  cFakefork : Option String
  deriving DecidableEq

/-- Importing the module samples the environment once. -/
def importModule (env : String → Option String) : ModuleState :=
  { cFakefork := env "C_FAKEFORK" }

/-- Python truthiness of `os.environ.get(...)`: `None` and the empty string
are falsy, any other string truthy. -/
def pyTruthyEnv : Option String → Bool
  | Option.none => false
  | some s => decide (s ≠ "")

/-- Observable effects of `detach` (worker.py lines 120-139), in order. -/
inductive DetachEvent : Type
  | execAttempt : String → List String → DetachEvent
  | setupLogging : String → Option String → Option String → DetachEvent
  | logCritical : String → Bool → DetachEvent
  deriving DecidableEq

/-- Terminal state of the daemonizer: the process image was replaced by
`os.execv` (control never returns), or the function returned an exit code. -/
inductive DetachOutcome : Type
  | replaced : DetachOutcome
  | returned : Nat → DetachOutcome
  deriving DecidableEq

structure DetachResult : Type where
  events : List DetachEvent
  outcome : DetachOutcome
  /-- The `fake` value actually passed to the `detached` context manager
  after line 124, `fake = 1 if C_FAKEFORK else fake`. -/
  fakeUsed : Bool
  deriving DecidableEq

/-- The `logger.critical("Can't exec %r", ' '.join([path] + argv), ...)`
message text. -/
def execErrMsg (path : String) (argv : List String) : String :=
  "Can't exec " ++ pyReprStr (String.intercalate " " (path :: argv))

/-- Lines 128-129: `if executable is not None: path = executable`, performed
before the single `os.execv` attempt. -/
def resolvedPath (path : String) (executable : Option String) : String :=
  match executable with
  | some e => e
  | Option.none => path

/-- Line 124: `fake = 1 if C_FAKEFORK else fake`, reading the module-level
constant captured at import. -/
def effectiveFake (mod : ModuleState) (fake : Bool) : Bool :=
  if pyTruthyEnv mod.cFakefork then true else fake

/-- `detach` (worker.py lines 120-139).  `execOk` stands for whether the
`os.execv` syscall succeeds (the one source of nondeterminism).  When the
caller supplied an `executable` override, line 128-129 rebinds `path`
before the single exec attempt.  On any exception the handler sets up
logging at ERROR severity, logs the command line at CRITICAL with
`exc_info=True`, and the function returns `EX_FAILURE`.  The `detached`
context manager (resource acquisition, forking) lives outside this file's
sources and is not modelled beyond the `fake` value handed to it. -/
def detach (mod : ModuleState) (execOk : Bool) (path : String)
    (argv : List String) (logfile pidfile : Option String)
    (uid gid umask : Option Value) (workdir : Option String)
    (fake : Bool) (executable : Option String) (hostname : Option String) :
    DetachResult :=
  let fakeUsed := effectiveFake mod fake
  let path := resolvedPath path executable
  if execOk then
    { events := [DetachEvent.execAttempt path (path :: argv)]
      outcome := DetachOutcome.replaced
      fakeUsed := fakeUsed }
  else
    { events := [DetachEvent.execAttempt path (path :: argv),
                 DetachEvent.setupLogging "ERROR" logfile hostname,
                 DetachEvent.logCritical (execErrMsg path argv) true]
      outcome := DetachOutcome.returned EX_FAILURE
      fakeUsed := fakeUsed }

/-- The exec attempts recorded in an event trace. -/
def execAttempts (events : List DetachEvent) : List (String × List String) :=
  events.filterMap (fun e =>
    match e with
    | DetachEvent.execAttempt p a => some (p, a)
    | _ => Option.none)

/-! ## Worker command pipeline -/

/-- What the `worker` command body reaches after parsing. -/
inductive WorkerEvent : Type
  | detachCalled : List String → WorkerEvent
  | workerConstructed : WorkerEvent
  deriving DecidableEq

/-- Click parses and converts every option value before the command body
runs; a conversion failure aborts with a usage error first.  This pipeline
covers the beat conversion followed by the body's detach-vs-inline branch
(worker.py lines 345-383): on the detach branch, detach is called with the
vector `detachBranchArgv` computes (or never, if `params` came out empty);
otherwise `app.Worker(...)` is constructed and started. -/
def invokeWorker (isWindows beatRaw : Bool)
    (ctxParams : List (String × Value)) (detachFlag : Bool) :
    PyResult (List WorkerEvent) :=
  match CeleryBeat.convert isWindows beatRaw with
  | PyResult.usageError m => PyResult.usageError m
  | PyResult.uncaught m => PyResult.uncaught m
  | PyResult.ok _ =>
      PyResult.ok
        (if detachFlag then
          match detachBranchArgv ctxParams with
          | some argv => [WorkerEvent.detachCalled argv]
          | Option.none => []
        else [WorkerEvent.workerConstructed])

/-- Concrete `ctx.params` contents for the end-to-end invocation
`--autoscale=10,0 --pool=solo -D` on a non-Windows context: the eager pool
option resolves first (to the implementation string
`concurrency.get_implementation('solo')` returns), the remaining options
carry their declared or app-config defaults, and the daemon options added
by `CeleryDaemonCommand` are unset. -/
def e2eParams : List (String × Value) :=
  [("pool", Value.str "celery.concurrency.solo:TaskPool"),
   ("hostname", Value.str "celery@host"),
   ("detach", Value.bool true),
   ("statedb", Value.none),
   ("loglevel", Value.str "WARNING"),
   ("optimization", Value.str "default"),
   ("prefetch_multiplier", Value.int 4),
   ("concurrency", Value.int 0),
   ("task_events", Value.bool false),
   ("time_limit", Value.none),
   ("soft_time_limit", Value.none),
   ("max_tasks_per_child", Value.none),
   ("max_memory_per_child", Value.none),
   ("purge", Value.bool false),
   ("queues", Value.none),
   ("exclude_queues", Value.none),
   ("include", Value.none),
   ("without_gossip", Value.bool false),
   ("without_mingle", Value.bool false),
   ("without_heartbeat", Value.bool false),
   ("heartbeat_interval", Value.none),
   ("autoscale", Value.tup 10 0),
   ("beat", Value.bool false),
   ("schedule_filename", Value.str "celerybeat-schedule"),
   ("scheduler", Value.none),
   ("logfile", Value.none),
   ("pidfile", Value.none),
   ("uid", Value.none),
   ("gid", Value.none),
   ("umask", Value.none),
   ("executable", Value.none)]

/-! ## Helper lemmas on dict operations -/

theorem dictKeys_cons (k0 : String) (v0 : Value) (tl : List (String × Value)) :
    dictKeys ((k0, v0) :: tl) = k0 :: dictKeys tl := rfl

theorem dictUpdate_cons (s : List (String × Value)) (k0 : String) (v0 : Value)
    (tl : List (String × Value)) :
    dictUpdate s ((k0, v0) :: tl) = dictUpdate (dictSet s k0 v0) tl := rfl

theorem dictGet_dictSet_self (d : List (String × Value)) (k : String) (v : Value) :
    dictGet (dictSet d k v) k = some v := by
  induction d with
  | nil => simp [dictSet, dictGet]
  | cons hd tl ih =>
      obtain ⟨k', v'⟩ := hd
      by_cases h : k' = k
      · subst h; simp [dictSet, dictGet]
      · simp [dictSet, dictGet, h, ih]

theorem dictGet_dictSet_ne (d : List (String × Value)) (k k' : String) (v : Value)
    (h : k' ≠ k) : dictGet (dictSet d k' v) k = dictGet d k := by
  induction d with
  | nil => simp [dictSet, dictGet, h]
  | cons hd tl ih =>
      obtain ⟨k'', v''⟩ := hd
      by_cases h2 : k'' = k'
      · subst h2; simp [dictSet, dictGet, h]
      · by_cases h3 : k'' = k
        · subst h3; simp [dictSet, dictGet, h2]
        · simp [dictSet, dictGet, h2, h3, ih]

theorem dictGet_dictUpdate_not_mem (d s : List (String × Value)) (k : String)
    (h : ¬ k ∈ dictKeys d) : dictGet (dictUpdate s d) k = dictGet s k := by
  induction d generalizing s with
  | nil => rfl
  | cons hd tl ih =>
      obtain ⟨k0, v0⟩ := hd
      rw [dictKeys_cons] at h
      simp only [List.mem_cons, not_or] at h
      rw [dictUpdate_cons, ih _ h.2, dictGet_dictSet_ne _ _ _ _ (Ne.symm h.1)]

theorem dictGet_dictUpdate_mem (d s : List (String × Value)) (k : String)
    (hnd : (dictKeys d).Nodup) (hk : k ∈ dictKeys d) :
    dictGet (dictUpdate s d) k = dictGet d k := by
  induction d generalizing s with
  | nil => cases hk
  | cons hd tl ih =>
      obtain ⟨k0, v0⟩ := hd
      rw [dictKeys_cons] at hnd hk
      rw [List.nodup_cons] at hnd
      rw [dictUpdate_cons]
      by_cases he : k = k0
      · subst he
        rw [dictGet_dictUpdate_not_mem _ _ _ hnd.1, dictGet_dictSet_self]
        simp [dictGet]
      · have hk' : k ∈ dictKeys tl := by
          rcases List.mem_cons.mp hk with h | h
          · exact absurd h he
          · exact h
        rw [ih _ hnd.2 hk']
        simp [dictGet, Ne.symm he]

/-! ## Claim theorems -/

/-- C1: evaluated at a remainder of two encodable options, the vector handed
to the daemonizer encodes only the FIRST one — the `return detach(...)` on
line 364 sits inside the reconstitution loop — while the reconstitution the
spec describes encodes both. -/
theorem detach_argv_encodes_only_first_option :
    detachBranchArgv
        [("concurrency", Value.int 4), ("loglevel", Value.str "WARNING")] =
      some ["-m", "celery", "worker", "--concurrency", "4"] ∧
    specReconstituteAll (remainingParams
        [("concurrency", Value.int 4), ("loglevel", Value.str "WARNING")]) =
      ["--concurrency", "4", "--loglevel", "WARNING"] := by
  constructor <;> decide

/-- C2 counterexample: a boolean option resolved to `False` is NOT omitted
from the reconstituted vector: `False is not None`, so the else-branch emits
`--purge` followed by `str(False)`. -/
theorem encode_bool_false_emits_tokens :
    encodeParam "purge" (Value.bool false) = ["--purge", "False"] ∧
    encodeParam "purge" (Value.bool false) ≠ [] := by
  constructor <;> decide

/-- C2 (amended): for every option name the reconstitution step emits no
token for a `None` value, exactly the bare long flag for a `True` boolean,
and the two tokens `--<name>`, `"False"` for a `False` boolean. -/
theorem encode_param_bool_cases (name : String) :
    encodeParam name Value.none = [] ∧
    encodeParam name (Value.bool true) = ["--" ++ name] ∧
    encodeParam name (Value.bool false) = ["--" ++ name, "False"] :=
  ⟨rfl, rfl, rfl⟩

/-- C3 counterexample: `kwargs.update(user_options)` lets a dynamic entry
replace the statically-resolved value of the same name: the static value 4
does not survive the merge. -/
theorem dynamic_merge_overrides_static_cex :
    dictGet (dictUpdate [("concurrency", Value.int 4)]
        [("concurrency", Value.int 9)]) "concurrency" = some (Value.int 9) ∧
    dictGet (dictUpdate [("concurrency", Value.int 4)]
        [("concurrency", Value.int 9)]) "concurrency" ≠ some (Value.int 4) := by
  constructor <;> decide

/-- C3 (amended): in the merge of dynamic options into the static map,
dynamic entries OVERRIDE statically-defined options of the same name
(`dict.update` semantics); a name no dynamic entry carries keeps its static
value. -/
theorem dict_update_dynamic_wins (s d : List (String × Value)) (k : String)
    (hnd : (dictKeys d).Nodup) :
    (k ∈ dictKeys d → dictGet (dictUpdate s d) k = dictGet d k) ∧
    (¬ k ∈ dictKeys d → dictGet (dictUpdate s d) k = dictGet s k) :=
  ⟨fun hk => dictGet_dictUpdate_mem d s k hnd hk,
   fun hk => dictGet_dictUpdate_not_mem d s k hk⟩

/-- Witness for `dict_update_dynamic_wins` at a concrete merge. -/
theorem dict_update_dynamic_wins_witness :
    dictGet (dictUpdate
        [("concurrency", Value.int 4), ("purge", Value.bool false)]
        [("concurrency", Value.int 9)]) "concurrency" = some (Value.int 9) ∧
    dictGet (dictUpdate
        [("concurrency", Value.int 4), ("purge", Value.bool false)]
        [("concurrency", Value.int 9)]) "purge" = some (Value.bool false) := by
  have h1 := dict_update_dynamic_wins
    [("concurrency", Value.int 4), ("purge", Value.bool false)]
    [("concurrency", Value.int 9)] "concurrency" (by decide)
  have h2 := dict_update_dynamic_wins
    [("concurrency", Value.int 4), ("purge", Value.bool false)]
    [("concurrency", Value.int 9)] "purge" (by decide)
  constructor
  · rw [h1.1 (by decide)]; decide
  · rw [h2.2 (by decide)]; decide

/-- C4 counterexample: at the end-to-end input `--autoscale=10,0 --pool=solo
-D` on a non-Windows context, the vector handed to the daemonizer is
`-m celery worker --pool <resolved pool implementation>` only: it contains
neither an `--autoscale` token (the early return truncates the loop after
the first remaining option) nor a `--detach` token (the detach flag is in
the exclusion set). -/
theorem e2e_detach_argv_cex :
    invokeWorker false false e2eParams true =
      PyResult.ok [WorkerEvent.detachCalled
        ["-m", "celery", "worker", "--pool", "celery.concurrency.solo:TaskPool"]] ∧
    ¬ "--autoscale" ∈
        ["-m", "celery", "worker", "--pool", "celery.concurrency.solo:TaskPool"] ∧
    ¬ "--detach" ∈
        ["-m", "celery", "worker", "--pool", "celery.concurrency.solo:TaskPool"] := by
  refine ⟨by decide, by decide, by decide⟩

/-- C4 (amended): on that input the detach branch hands the daemonizer the
vector `-m celery worker --pool <resolved pool implementation>` (only the
first remaining option is encoded, and the excluded detach flag is never
re-encoded), and for every invocation the daemonizer's outcome is either
the process image being replaced or the returned exit code `EX_FAILURE`. -/
theorem e2e_detach_amended :
    invokeWorker false false e2eParams true =
      PyResult.ok [WorkerEvent.detachCalled
        ["-m", "celery", "worker", "--pool", "celery.concurrency.solo:TaskPool"]] ∧
    ∀ (mod : ModuleState) (execOk : Bool) (path : String) (argv : List String)
      (lf pf : Option String) (uid gid um : Option Value) (wd : Option String)
      (fake : Bool) (exe hn : Option String),
      (detach mod execOk path argv lf pf uid gid um wd fake exe hn).outcome =
          DetachOutcome.replaced ∨
      (detach mod execOk path argv lf pf uid gid um wd fake exe hn).outcome =
          DetachOutcome.returned EX_FAILURE := by
  constructor
  · decide
  · intro mod execOk path argv lf pf uid gid um wd fake exe hn
    cases execOk
    · right; rfl
    · left; rfl

/-- C5: on every input splitting into exactly two integer tokens the
autoscale validator returns the pair (max, min) of the two parsed integers,
whatever their input order, so the first component is always ≥ the second. -/
theorem autoscale_two_tokens_max_min (s t1 t2 : String) (x y : Int)
    (hs : splitComma s = [t1, t2])
    (h1 : pyParseInt t1 = some x) (h2 : pyParseInt t2 = some y) :
    Autoscale.convert s = PyResult.ok (max x y, min x y) ∧
    min x y ≤ max x y := by
  refine ⟨?_, min_le_max⟩
  unfold Autoscale.convert
  rw [hs]
  simp [h1, h2, sortedDescPair]

/-- Witness for `autoscale_two_tokens_max_min`: `"5,10"` and `"10,5"` both
yield `(10, 5)`. -/
theorem autoscale_two_tokens_max_min_witness :
    Autoscale.convert "5,10" = PyResult.ok (10, 5) ∧
    Autoscale.convert "10,5" = PyResult.ok (10, 5) := by
  have h1 := autoscale_two_tokens_max_min "5,10" "5" "10" 5 10
    (by decide) (by decide) (by decide)
  have h2 := autoscale_two_tokens_max_min "10,5" "10" "5" 10 5
    (by decide) (by decide) (by decide)
  constructor
  · rw [h1.1]; decide
  · rw [h2.1]; decide

/-- C6: a two-token autoscale input with a non-integer token does NOT fail
with a controlled usage error: the except-branch formats its message with
`value.join(',')` on a list, which raises an uncaught `AttributeError`.
The one-token non-integer input, by contrast, does fail in a controlled
way. -/
theorem autoscale_mixed_tokens_uncaught :
    Autoscale.convert "3,x" =
      PyResult.uncaught "AttributeError: list object has no attribute join" ∧
    Autoscale.convert "y" =
      PyResult.usageError "Expected an integer. Got ['y'] instead." := by
  constructor <;> decide

/-- C7: whenever the exec attempt fails, `detach` sets up the logging
subsystem at ERROR severity, logs the failed command line at CRITICAL with
the original exception (`exc_info=True`), and returns the fixed non-zero
exit status `EX_FAILURE` instead of propagating. -/
theorem detach_exec_failure_logs_and_returns
    (mod : ModuleState) (path : String) (argv : List String)
    (lf pf : Option String) (uid gid um : Option Value) (wd : Option String)
    (fake : Bool) (exe hn : Option String) :
    (detach mod false path argv lf pf uid gid um wd fake exe hn).events =
      [DetachEvent.execAttempt (resolvedPath path exe)
          (resolvedPath path exe :: argv),
       DetachEvent.setupLogging "ERROR" lf hn,
       DetachEvent.logCritical (execErrMsg (resolvedPath path exe) argv) true] ∧
    (detach mod false path argv lf pf uid gid um wd fake exe hn).outcome =
      DetachOutcome.returned EX_FAILURE ∧
    EX_FAILURE ≠ 0 :=
  ⟨rfl, rfl, by decide⟩

/-- C8: with the beat flag set true on Windows the conversion fails with a
usage error before the command body can daemonize or construct a worker
(the pipeline produces no event), and in every other combination the
validator passes the value through unchanged. -/
theorem beat_windows_fails_before_work
    (ctxParams : List (String × Value)) (detachFlag : Bool) :
    invokeWorker true true ctxParams detachFlag =
      PyResult.usageError ("-B option does not work on Windows.  " ++
        "Please run celery beat as a separate service.") ∧
    (∀ v : Bool, CeleryBeat.convert false v = PyResult.ok v) ∧
    (∀ w : Bool, CeleryBeat.convert w false = PyResult.ok false) := by
  refine ⟨rfl, fun v => rfl, fun w => ?_⟩
  cases w <;> rfl

/-- C9: when an alternate executable is supplied, the single exec attempt
uses it — the override replaces the path before the attempt, so the
originally supplied path is never exec'd. -/
theorem detach_override_replaces_path
    (mod : ModuleState) (execOk : Bool) (path : String) (argv : List String)
    (lf pf : Option String) (uid gid um : Option Value) (wd : Option String)
    (fake : Bool) (e : String) (hn : Option String) :
    execAttempts
        (detach mod execOk path argv lf pf uid gid um wd fake (some e) hn).events =
      [(e, e :: argv)] := by
  cases execOk <;> rfl

theorem detach_fakeUsed_eq (mod : ModuleState) (execOk : Bool) (path : String)
    (argv : List String) (lf pf : Option String) (uid gid um : Option Value)
    (wd : Option String) (fake : Bool) (exe hn : Option String) :
    (detach mod execOk path argv lf pf uid gid um wd fake exe hn).fakeUsed =
      effectiveFake mod fake := by
  cases execOk <;> rfl

/-- C10: the fake-fork environment variable is read once, at import; if it
was set non-empty then, every later `detach` call runs in fake mode whatever
`fake` argument the caller passes, and `detach`'s behaviour depends on the
environment only through the value captured at import. -/
theorem fakefork_sampled_at_import
    (env env2 : String → Option String) (s : String)
    (hset : env "C_FAKEFORK" = some s) (hne : s ≠ "")
    (execOk : Bool) (path : String) (argv : List String) (lf pf : Option String)
    (uid gid um : Option Value) (wd : Option String) (fake : Bool)
    (exe hn : Option String) :
    (detach (importModule env) execOk path argv lf pf uid gid um wd
        fake exe hn).fakeUsed = true ∧
    (env2 "C_FAKEFORK" = env "C_FAKEFORK" →
      detach (importModule env2) execOk path argv lf pf uid gid um wd
          fake exe hn =
        detach (importModule env) execOk path argv lf pf uid gid um wd
          fake exe hn) := by
  constructor
  · rw [detach_fakeUsed_eq]
    simp [effectiveFake, importModule, hset, pyTruthyEnv, hne]
  · intro h2
    have he : importModule env2 = importModule env := by
      simp [importModule, h2]
    rw [he]

/-- Witness for `fakefork_sampled_at_import`: with `C_FAKEFORK` bound to
`"1"` at import, a call passing `fake = false` still runs in fake mode, and
an environment that later differs on every other key gives the same
`detach` behaviour. -/
theorem fakefork_sampled_at_import_witness :
    ((fun k => if k = "C_FAKEFORK" then some "1" else Option.none)
        "C_FAKEFORK" = some "1") ∧
    ("1" : String) ≠ "" ∧
    (detach (importModule
        (fun k => if k = "C_FAKEFORK" then some "1" else Option.none))
        true "p" [] Option.none Option.none Option.none Option.none Option.none
        Option.none false Option.none Option.none).fakeUsed = true ∧
    detach (importModule
        (fun k => if k = "C_FAKEFORK" then some "1" else some "other"))
        true "p" [] Option.none Option.none Option.none Option.none Option.none
        Option.none false Option.none Option.none =
      detach (importModule
        (fun k => if k = "C_FAKEFORK" then some "1" else Option.none))
        true "p" [] Option.none Option.none Option.none Option.none Option.none
        Option.none false Option.none Option.none := by
  have h := fakefork_sampled_at_import
    (fun k => if k = "C_FAKEFORK" then some "1" else Option.none)
    (fun k => if k = "C_FAKEFORK" then some "1" else some "other") "1"
    (by decide) (by decide) true "p" [] Option.none Option.none Option.none
    Option.none Option.none Option.none false Option.none Option.none
  exact ⟨by decide, by decide, h.1, h.2 (by decide)⟩
